import Mathlib

/-!
Verification of the Remote Tool Gateway of the adk-trading-chatbot
repository: a shallow embedding of src/agents/mcp_client.py,
src/agents/mcp_tool_manager.py and src/agents/tool_collector.py.

Python values are embedded as the inductive type PyVal; Python dicts are
insertion-ordered association lists; network effects (HTTP posts, timeouts,
raised exceptions) are supplied by explicit environment functions, so every
embedded operation is a total Lean function.
-/

set_option autoImplicit false

namespace AdkGateway

/-- Embedding of the Python values the gateway manipulates.  Dicts are
insertion-ordered association lists with string keys (the only keys the
source uses). -/
inductive PyVal where
  | vnone
  | vbool (b : Bool)
  | vint (n : Int)
  | vstr (s : String)
  | vlist (xs : List PyVal)
  | vdict (kvs : List (String × PyVal))
deriving Repr

/-- First-match lookup in an association list, i.e. Python dict access
(source dicts never hold duplicate keys). -/
def lookup : List (String × PyVal) → String → Option PyVal
  | [], _ => none
  | (k, v) :: rest, key => if k == key then some v else lookup rest key

/-- Python dict assignment d[k] = v: replace the value of an existing key in
place, otherwise append (insertion order preserved). -/
def dictSet : List (String × PyVal) → String → PyVal → List (String × PyVal)
  | [], key, v => [(key, v)]
  | (k, w) :: rest, key, v =>
    if k == key then (k, v) :: rest else (k, w) :: dictSet rest key v

/-- Whether a needle occurs as a contiguous run inside a haystack, on
character lists; used to embed the Python substring test x in s. -/
def charsContain (hay : List Char) (needle : List Char) : Bool :=
  match hay with
  | [] => needle.isEmpty
  | c :: rest => needle.isPrefixOf (c :: rest) || charsContain rest needle

/-- Python substring test: needle in hay for strings. -/
def strContains (hay needle : String) : Bool :=
  charsContain hay.data needle.data

/-- Python s.lower(), character by character. -/
def strLower (s : String) : String :=
  ⟨s.data.map Char.toLower⟩

/-- Python s.strip() with no argument: drop whitespace from both ends. -/
def strTrim (s : String) : String :=
  ⟨((s.data.dropWhile Char.isWhitespace).reverse.dropWhile
      Char.isWhitespace).reverse⟩

/-- Python truthiness bool(v). -/
def PyVal.isTruthy : PyVal → Bool
  | .vnone => false
  | .vbool b => b
  | .vint n => n != 0
  | .vstr s => s.length != 0
  | .vlist xs => !xs.isEmpty
  | .vdict kvs => !kvs.isEmpty

/-- Python str(v).  Strings map to themselves; the composite cases render a
repr-like text (the source only ever stringifies scalars on the paths the
claims exercise). -/
def pyStr : PyVal → String
  | .vnone => "None"
  | .vbool true => "True"
  | .vbool false => "False"
  | .vint n => toString n
  | .vstr s => s
  | .vlist _ => "<list>"
  | .vdict _ => "<dict>"

/-- Python membership k in v for a string k: key membership for dicts,
element equality for lists, substring test for strings.  Membership in a
scalar raises TypeError in Python; no modelled code path reaches that case,
so it is mapped to false. -/
def pyContains (v : PyVal) (k : String) : Bool :=
  match v with
  | .vdict d => (lookup d k).isSome
  | .vlist xs => xs.any fun x =>
      match x with
      | .vstr s => s == k
      | _ => false
  | .vstr s => strContains s k
  | _ => false

/-! ## MCPToolManager._get_tool_param_mapping
(src/agents/mcp_tool_manager.py, lines 97-144) -/

/-- Embeds MCPToolManager._get_tool_param_mapping: the generic alias table
is derived from whether the schema declares symbols or symbol, and a static
per-tool table keyed by tool name overrides it. -/
def get_tool_param_mapping (properties : List (String × PyVal))
    (tool_name : String) : List (String × String) :=
  let has_symbols := (lookup properties "symbols").isSome
  let has_symbol := (lookup properties "symbol").isSome
  let generic :=
    if has_symbols then
      [("symbol", "symbols"), ("symbol_list", "symbols"),
       ("stocks", "symbols"), ("stock", "symbols")]
    else if has_symbol then
      [("symbols", "symbol"), ("symbol_list", "symbol"),
       ("stocks", "symbol"), ("stock", "symbol")]
    else []
  -- specific_mappings override, keyed by tool name
  if tool_name == "get_price_board" then
    [("symbol", "symbols"), ("symbol_list", "symbols"),
     ("stocks", "symbols"), ("stock", "symbols")]
  else generic

/-! ## MCPToolManager._process_arguments
(src/agents/mcp_tool_manager.py, lines 25-95) -/

/-- First-match lookup in the parameter-name mapping. -/
def aliasLookup : List (String × String) → String → Option String
  | [], _ => none
  | (k, v) :: rest, key => if k == key then some v else aliasLookup rest key

/-- The alias-normalization pass of _process_arguments (lines 44-50):
rewrite each keyword through the mapping, keeping unmapped names; assignment
into the fresh dict proceeds left to right, so a later keyword that maps to
the same normalized name overwrites an earlier one, as in Python. -/
def normalizeKwargs (mapping : List (String × String))
    (kwargs : List (String × PyVal)) : List (String × PyVal) :=
  kwargs.foldl
    (fun acc kv =>
      let key := match aliasLookup mapping kv.1 with
        | some nk => nk
        | none => kv.1
      dictSet acc key kv.2)
    []

/-- param_schema.get("type") of line 60; schema entries are dicts in every
catalog the server publishes. -/
def schemaType (param_schema : PyVal) : PyVal :=
  match param_schema with
  | .vdict d => (lookup d "type").getD .vnone
  | _ => .vnone

/-- The test of lines 71-73: the declared kind equals array, or is a list
of kinds among which array occurs. -/
def typeIsArray (param_type : PyVal) : Bool :=
  match param_type with
  | .vstr s => s == "array"
  | .vlist ts => ts.any fun t =>
      match t with
      | .vstr s => s == "array"
      | _ => false
  | _ => false

/-- The test of line 81: the declared kind equals string. -/
def typeIsString (param_type : PyVal) : Bool :=
  match param_type with
  | .vstr s => s == "string"
  | _ => false

/-- The coercion of the get_price_board symbols special case (lines
63-69): a scalar string is wrapped, a list passes through, anything else
is wrapped via string conversion. -/
def coercePriceBoardSymbols : PyVal → PyVal
  | .vstr s => .vlist [.vstr s]
  | .vlist xs => .vlist xs
  | v => .vlist [.vstr (pyStr v)]

/-- The generic array coercion (lines 74-79): a scalar string is wrapped,
a list passes through, anything else is wrapped as is, with no string
conversion. -/
def coerceArray : PyVal → PyVal
  | .vstr s => .vlist [.vstr s]
  | .vlist xs => .vlist xs
  | v => .vlist [v]

/-- The string coercion (lines 82-90): absent stays absent, a list takes
its first element stringified (empty list gives the empty string), any
other value is stringified. -/
def coerceString : PyVal → PyVal
  | .vnone => .vnone
  | .vlist [] => .vstr ""
  | .vlist (x :: _) => .vstr (pyStr x)
  | v => .vstr (pyStr v)

/-- One parameter of the coercion pass of _process_arguments
(lines 53-93), given the tool name and the declared schema properties. -/
def processParam (tool_name : String) (properties : List (String × PyVal))
    (param_name : String) (param_value : PyVal) : PyVal :=
  match lookup properties param_name with
  | none => param_value
  | some param_schema =>
    -- special case for get_price_board symbols (lines 63-69)
    if tool_name == "get_price_board" && param_name == "symbols" then
      coercePriceBoardSymbols param_value
    -- array / list types (lines 71-79)
    else if typeIsArray (schemaType param_schema) then
      coerceArray param_value
    -- string types (lines 81-90)
    else if typeIsString (schemaType param_schema) then
      coerceString param_value
    else param_value

/-- Folds processParam over the normalized kwargs, building the processed
dict front to back as the Python loop does. -/
def processLoop (tool_name : String) (properties : List (String × PyVal))
    (kwargs : List (String × PyVal)) : List (String × PyVal) :=
  kwargs.foldl
    (fun acc kv => dictSet acc kv.1 (processParam tool_name properties kv.1 kv.2))
    []

/-- Embeds MCPToolManager._process_arguments: alias normalization followed
by per-parameter coercion. -/
def process_arguments (tool_name : String) (properties : List (String × PyVal))
    (tool_param_mapping : List (String × String))
    (kwargs : List (String × PyVal)) : List (String × PyVal) :=
  processLoop tool_name properties (normalizeKwargs tool_param_mapping kwargs)

/-! ## MCPClient (src/agents/mcp_client.py)

The two route candidates are the class constant ENDPOINTS; each HTTP post
is resolved by an explicit environment.  The response decoder
(_parse_response / _parse_sse_response) is abstracted by carrying its
outcome, an Option PyVal, inside the response value: none models an
undecodable body. -/

/-- MCPClient.ENDPOINTS (line 21). -/
def ENDPOINTS : List String := ["/mcp", "/"]

/-- One HTTP response as the client observes it: status code, the valued
session header (headers.get of mcp-session-id or Mcp-Session-Id, lines
136-138), the decoded body per _parse_response, and the raw text used in
error messages. -/
structure HttpResp where
  status : Nat
  sessionHeader : Option String
  body : Option PyVal
  text : String

/-- Outcome of one client.post call: a response, a timeout-family
exception (httpx.TimeoutException, ConnectTimeout, ReadTimeout), or any
other exception; the string is the str() of the exception. -/
inductive PostOutcome where
  | resp (r : HttpResp)
  | timeout (msg : String)
  | exn (msg : String)

/-- Environment for the handshake: outcome of the post at a given
(attempt index, endpoint index). -/
def SessionEnv := Nat → Nat → PostOutcome

/-- Environment for one call_jsonrpc invocation: outcome of the post at a
given endpoint index. -/
def CallEnv := Nat → PostOutcome

/-- The mutable client state: the cached session id (self.session_id). -/
structure ClientState where
  sessionId : Option String
deriving Repr, DecidableEq

/-- Whether a decoded handshake body carries an error envelope, the test
result and "error" in result of line 149. -/
def bodyCarriesError : Option PyVal → Bool
  | some b => b.isTruthy && pyContains b "error"
  | none => false

/-- How processing one endpoint inside an attempt ends. -/
inductive EndpointStep where
  | advance
  | success (sid : String)
  | failNone
  | timeoutErr (msg : String)
  | exnErr (msg : String)
deriving Repr, DecidableEq

/-- Processing of one route candidate inside initialize_session (lines
113-176): a 404 on a non-final candidate advances; any other non-200 status
advances on a non-final candidate and fails on the final one; a missing
session header behaves the same; an error envelope in the decoded body
fails immediately; otherwise the session id is returned.  An exception
from the post escapes the candidate loop to the outer handlers.  (The
inner httpx.HTTPStatusError handler of lines 178-195 is dead code: this
path never calls raise_for_status, so that exception cannot arise.) -/
def stepEndpoint (isLast : Bool) (o : PostOutcome) : EndpointStep :=
  match o with
  | .timeout m => .timeoutErr m
  | .exn m => .exnErr m
  | .resp r =>
    if r.status == 404 && !isLast then .advance
    else if r.status != 200 then
      (if !isLast then .advance else .failNone)
    else
      match r.sessionHeader with
      | none => if !isLast then .advance else .failNone
      | some sid =>
        if bodyCarriesError r.body then .failNone else .success sid

/-- One iteration of the retry loop: try the two candidates in order
(the fire-and-forget initialized notification of lines 160-174 swallows
its own exceptions and has no observable effect, so it is not modelled). -/
def attemptOnce (env : SessionEnv) (attempt : Nat) : EndpointStep :=
  match stepEndpoint false (env attempt 0) with
  | .advance => stepEndpoint true (env attempt 1)
  | s => s

/-- Observable outcome of initialize_session: the returned value, the
final cached state, the backoff sleeps performed (in order), and how many
outer-loop attempts were entered. -/
structure InitResult where
  ret : Option String
  st : ClientState
  sleeps : List Nat
  attempts : Nat
deriving Repr, DecidableEq

/-- The retry loop of initialize_session (lines 94-230), structurally
recursive on the remaining attempts (fuel = max_retries - attempt).  An
exception sleeps 2 ^ attempt and retries only while attempt <
max_retries - 1; a definitive in-attempt failure returns immediately with
no retry; falling off the loop returns none. -/
def initLoop (env : SessionEnv) (max_retries : Nat) :
    Nat → Nat → List Nat → InitResult
  | 0, attempt, sleeps => ⟨none, ⟨none⟩, sleeps, attempt⟩
  | fuel + 1, attempt, sleeps =>
    match attemptOnce env attempt with
    | .success sid => ⟨some sid, ⟨some sid⟩, sleeps, attempt + 1⟩
    | .failNone => ⟨none, ⟨none⟩, sleeps, attempt + 1⟩
    -- unreachable: the final candidate never advances; were the inner loop
    -- to exhaust, Python would fall through to the next attempt, no sleep
    | .advance => initLoop env max_retries fuel (attempt + 1) sleeps
    | .timeoutErr _ =>
      if attempt < max_retries - 1 then
        initLoop env max_retries fuel (attempt + 1) (sleeps ++ [2 ^ attempt])
      else ⟨none, ⟨none⟩, sleeps, attempt + 1⟩
    | .exnErr _ =>
      if attempt < max_retries - 1 then
        initLoop env max_retries fuel (attempt + 1) (sleeps ++ [2 ^ attempt])
      else ⟨none, ⟨none⟩, sleeps, attempt + 1⟩

/-- Embeds MCPClient.initialize_session (lines 78-230): return the cached
id when present, otherwise run the retry loop from attempt 0. -/
def init_session (st : ClientState) (env : SessionEnv)
    (max_retries : Nat := 3) : InitResult :=
  match st.sessionId with
  | some sid => ⟨some sid, st, [], 0⟩
  | none => initLoop env max_retries max_retries 0 []

/-! ## MCPClient.call_jsonrpc (src/agents/mcp_client.py, lines 232-334) -/

/-- The two ways call_jsonrpc returns: the payload of a successful call
(line 309, result.get of the result key with the whole envelope as
default), or one of the tagged error dicts built on the failure paths. -/
inductive CallOutcome where
  | success (v : PyVal)
  | err (v : PyVal)

/-- The dict built by the outer except handler (lines 329-334). -/
def outerExnDict (server_url method msg : String) : PyVal :=
  .vdict [("error", .vstr msg), ("method", .vstr method),
    ("note", .vstr ("Failed to call MCP server at " ++ server_url))]

/-- The error-envelope normalization of lines 294-307: a structured error
object contributes its message (default: its own stringification) and
code; a bare value is stringified with no code. -/
def normalizeErrorEnvelope (method : String) (error_obj : PyVal) : PyVal :=
  match error_obj with
  | .vdict ed => .vdict
      [("error", (lookup ed "message").getD (.vstr (pyStr (.vdict ed)))),
       ("code", (lookup ed "code").getD .vnone),
       ("method", .vstr method)]
  | v => .vdict
      [("error", .vstr (pyStr v)),
       ("code", .vnone),
       ("method", .vstr method)]

/-- Processing of one route candidate inside call_jsonrpc (lines 269-321).
none means continue with the next candidate; raise_for_status (line 283)
raises for every non-2xx status, and its handler returns the HTTP error
dict unless a 404 on a non-final candidate advances.  A decoded non-dict
envelope would make result.get on line 309 raise AttributeError, which the
outer handler turns into its tagged dict. -/
def callEndpoint (server_url method : String) (isLast : Bool) (i : Nat)
    (o : PostOutcome) : Option CallOutcome :=
  match o with
  | .timeout m => some (.err (outerExnDict server_url method m))
  | .exn m => some (.err (outerExnDict server_url method m))
  | .resp r =>
    if r.status == 404 && !isLast then none
    else if !(200 ≤ r.status && r.status < 300) then
      some (.err (.vdict
        [("error", .vstr ("HTTP " ++ toString r.status ++ ": " ++ r.text)),
         ("method", .vstr method),
         ("endpoint", .vstr (ENDPOINTS.getD i ""))]))
    else
      match r.body with
      | none => some (.err (.vdict
          [("error", .vstr "Failed to parse response"),
           ("method", .vstr method)]))
      | some result =>
        if pyContains result "error" then
          match result with
          | .vdict d =>
            some (.err (normalizeErrorEnvelope method
              ((lookup d "error").getD .vnone)))
          | _ =>
            -- a non-dict envelope whose membership test succeeded: the
            -- subscript on line 295 raises, caught by the outer handler
            some (.err (outerExnDict server_url method "TypeError"))
        else
          match result with
          | .vdict d => some (.success ((lookup d "result").getD (.vdict d)))
          | _ =>
            -- result.get on a non-dict raises, caught by the outer handler
            some (.err (outerExnDict server_url method "AttributeError"))

/-- The ensure-session step of call_jsonrpc (lines 250-252): the cached
id if present, else the value a fresh initialize_session run (default
max_retries 3) returns. -/
def ensureSessionId (st : ClientState) (senv : SessionEnv) : Option String :=
  match st.sessionId with
  | some s => some s
  | none => (init_session ⟨none⟩ senv 3).ret

/-- Embeds MCPClient.call_jsonrpc as its tagged outcome: ensure a session
(lines 250-256, session failure becomes an error value), then try the two
candidates in order; the post-loop dict of lines 323-327 is returned when
both candidates advance. -/
def callOutcome (st : ClientState) (senv : SessionEnv) (cenv : CallEnv)
    (server_url method : String) : CallOutcome :=
  match ensureSessionId st senv with
  | none => .err (.vdict
      [("error", .vstr "Failed to initialize MCP session"),
       ("method", .vstr method)])
  | some _ =>
    match callEndpoint server_url method false 0 (cenv 0) with
    | some out => out
    | none =>
      match callEndpoint server_url method true 1 (cenv 1) with
      | some out => out
      | none => .err (.vdict
          [("error", .vstr "Failed to connect to MCP server"),
           ("method", .vstr method),
           ("note", .vstr "Tried endpoints: ['/mcp', '/']")])

/-- The value call_jsonrpc returns to its caller. -/
def call_jsonrpc (st : ClientState) (senv : SessionEnv) (cenv : CallEnv)
    (server_url method : String) : PyVal :=
  match callOutcome st senv cenv server_url method with
  | .success v => v
  | .err v => v

/-! ## Result post-processing of the synthesized tool functions
(the function body generated by MCPToolManager._create_mcp_tool_function,
src/agents/mcp_tool_manager.py, lines 264-309).

An uncaught Python exception (the generated body has no try around this
part) is modelled as the .error case of Except. -/

/-- The text-collection loop over a content list (generated lines
289-297): a dict item with a text key contributes that value; a dict item
without one but with type equal to text contributes the empty string (its
item.get of text defaults to the empty string); a bare string contributes
itself; everything else is skipped. -/
def collectTexts : List PyVal → List PyVal
  | [] => []
  | item :: rest =>
    match item with
    | .vdict d =>
      (match lookup d "text" with
       | some t => t :: collectTexts rest
       | none =>
         match lookup d "type" with
         | some (.vstr "text") => .vstr "" :: collectTexts rest
         | _ => collectTexts rest)
    | .vstr s => .vstr s :: collectTexts rest
    | _ => collectTexts rest

/-- The return step on a nonempty texts list (generated lines 298-301):
one element is returned as is; several are joined with newlines, which in
Python raises TypeError unless every element is a string. -/
def joinTexts (texts : List PyVal) : Except String PyVal :=
  match texts with
  | [t] => .ok t
  | _ =>
    if texts.all (fun t => match t with | .vstr _ => true | _ => false) then
      .ok (.vstr (String.intercalate "\n" (texts.map pyStr)))
    else .error "TypeError"

/-- The ContentPayload reduction of the generated body (lines 285-309):
a dict result with a content key reduces its content; otherwise a text key
is consulted; otherwise the result passes through unchanged.  On a
non-dict result the Python membership test is a substring test (strings),
an element test (lists) or raises (scalars), and the subsequent subscript
raises, which the model records as .error. -/
def reduceContent (result : PyVal) : Except String PyVal :=
  match result with
  | .vdict d =>
    (match lookup d "content" with
     | some content =>
       (match content with
        | .vlist items =>
          let texts := collectTexts items
          if texts.isEmpty then .ok content else joinTexts texts
        | .vstr s => .ok (.vstr s)
        | other => .ok other)
     | none =>
       match lookup d "text" with
       | some t => .ok t
       | none => .ok (.vdict d))
  | .vstr s =>
    if strContains s "content" then .error "TypeError"
    else if strContains s "text" then .error "TypeError"
    else .ok (.vstr s)
  | .vlist xs =>
    if pyContains (.vlist xs) "content" then .error "TypeError"
    else if pyContains (.vlist xs) "text" then .error "TypeError"
    else .ok (.vlist xs)
  | _ => .error "TypeError"

/-- The error-keyword sniff on a string result (generated line 278). -/
def looksLikeErrorText (s : String) : Bool :=
  strContains (strLower s) "error" || strContains (strLower s) "failed"
    || (strTrim s).length == 0

/-- The full post-processing a synthesized tool applies to the value
call_jsonrpc returned (generated lines 264-309): a dict carrying an error
key becomes the structured error triple; a string that looks like an error
is reclassified into a structured error naming the tool; everything else
goes through the ContentPayload reduction. -/
def processToolResult (tool_name : String) (result : PyVal) :
    Except String PyVal :=
  match result with
  | .vdict d =>
    (match lookup d "error" with
     | some errv =>
       let error_msg : PyVal := match errv with
         | .vdict ed => (lookup ed "message").getD (.vstr (pyStr errv))
         | v => v
       .ok (.vdict
         [("error", .vstr (pyStr error_msg)), ("tool", .vstr tool_name),
          ("code", (lookup d "code").getD .vnone)])
     | none => reduceContent (.vdict d))
  | .vstr s =>
    if looksLikeErrorText s then
      .ok (.vdict
        [("error", if (strTrim s).length != 0 then .vstr s else .vstr "Empty response"),
         ("tool", .vstr tool_name)])
    else reduceContent (.vstr s)
  | other => reduceContent other

/-! ## MCPToolManager._get_closing_price_fallback
(src/agents/mcp_tool_manager.py, lines 374-443) -/

/-- The tagged dict the fallback returns on its error paths (lines
408-413 and 438-443); the message suffix is the formatted error value or
the stringified exception. -/
def fallbackErrDict (msg : String) : PyVal :=
  .vdict
    [("error", .vstr ("Failed to get closing price: " ++ msg)),
     ("tool", .vstr "get_quote_history_price"),
     ("fallback_from", .vstr "get_quote_intraday_price")]

/-- The text-collection loop of the fallback (lines 419-424); unlike the
generated tool body it has no alternative branch for items declaring a
text type without a text key. -/
def collectFallbackTexts : List PyVal → List PyVal
  | [] => []
  | item :: rest =>
    match item with
    | .vdict d =>
      (match lookup d "text" with
       | some t => t :: collectFallbackTexts rest
       | none => collectFallbackTexts rest)
    | .vstr s => .vstr s :: collectFallbackTexts rest
    | _ => collectFallbackTexts rest

/-- The body of _get_closing_price_fallback applied to the value the
get_quote_history_price call returned (lines 408-436), before the
enclosing try: .error records a raised exception (attribute access or
subscript on a non-dict), which the except clause then converts. -/
def fallbackBody (result : PyVal) : Except String PyVal :=
  match result with
  | .vdict d =>
    (match lookup d "error" with
     | some errv => .ok (fallbackErrDict (pyStr errv))
     | none =>
       match lookup d "content" with
       | some content =>
         (match content with
          | .vlist items =>
            let texts := collectFallbackTexts items
            if texts.isEmpty then .ok content else joinTexts texts
          | .vstr s => .ok (.vstr s)
          | other => .ok other)
       | none =>
         match lookup d "text" with
         | some t => .ok t
         | none => .ok (.vdict d))
  | .vstr s =>
    if strContains s "error" then .error "AttributeError"
    else if strContains s "content" then .error "TypeError"
    else if strContains s "text" then .error "TypeError"
    else .ok (.vstr s)
  | .vlist xs =>
    if pyContains (.vlist xs) "error" then .error "AttributeError"
    else if pyContains (.vlist xs) "content" then .error "TypeError"
    else if pyContains (.vlist xs) "text" then .error "TypeError"
    else .ok (.vlist xs)
  | _ => .error "TypeError"

/-- Embeds MCPToolManager._get_closing_price_fallback: one
get_quote_history_price call (its returned value is the argument; the
request window arguments only shape the outbound request, which the
environment already absorbs), reduced under the enclosing try. -/
def get_closing_price_fallback (result : PyVal) : PyVal :=
  match fallbackBody result with
  | .ok v => v
  | .error e => fallbackErrDict e

/-! ## MCPToolManager.wrap_intraday_price_tool
(src/agents/mcp_tool_manager.py, lines 445-508) -/

/-- The local-time facts the wrapper reads (datetime.now of lines
467-469). -/
structure TimeInfo where
  dayName : String
  hour : Nat

/-- The trading-hours computation of lines 470-471 (and of
tool_collector.get_current_datetime, lines 35-40). -/
def is_trading_hours (t : TimeInfo) : Bool :=
  !(t.dayName == "Saturday" || t.dayName == "Sunday")
    && (9 ≤ t.hour && t.hour < 15)

/-- Outcome of the wrapped call: the returned value and how many times
_get_closing_price_fallback (hence the secondary capability) was
invoked. -/
structure WrapResult where
  ret : PyVal
  fallbackCalls : Nat
deriving Repr

/-- The error test of line 483: isinstance dict and carrying an error
key. -/
def isErrorDictResult (v : PyVal) : Bool :=
  match v with
  | .vdict d => (lookup d "error").isSome
  | _ => false

/-- The emptiness test of line 492: falsy, or a whitespace-only string. -/
def isEmptyResult (v : PyVal) : Bool :=
  !v.isTruthy
    || (match v with
        | .vstr s => (strTrim s).length == 0
        | _ => false)

/-- Embeds smart_get_quote_intraday_price (lines 456-508).  primary is
the underlying tool call, .error when it raises; fbResult is the value
the secondary get_quote_history_price call would return.  The trading
hours flag is computed (line 471) but read by nothing: the fallback is
triggered only by an error dict, a falsy or blank-string result, or a
raised exception. -/
def smart_get_quote_intraday_price (t : TimeInfo)
    (primary : Except String PyVal) (fbResult : PyVal) : WrapResult :=
  let _informational : Bool := is_trading_hours t
  match primary with
  | .error _ => ⟨get_closing_price_fallback fbResult, 1⟩
  | .ok result =>
    if isErrorDictResult result then ⟨get_closing_price_fallback fbResult, 1⟩
    else if isEmptyResult result then ⟨get_closing_price_fallback fbResult, 1⟩
    else ⟨result, 0⟩

/-! ## MCPToolManager.create_fallback_tools and the stub path of
ToolCollector.collect_all_tools
(src/agents/mcp_tool_manager.py lines 536-585;
src/agents/tool_collector.py lines 81-111 and 186-210) -/

/-- A named callable tool as the collector publishes it: the call takes
arbitrary keyword arguments. -/
structure NamedTool where
  name : String
  call : List (String × PyVal) → PyVal

/-- The list common_mcp_tools of lines 571-578. -/
def common_mcp_tools : List String :=
  ["get_quote_intraday_price", "get_quote_history_price", "get_price_board",
   "get_company_overview", "get_company_news", "get_quote_price_depth"]

/-- The payload a fallback tool returns for every invocation (lines
552-564). -/
def fallback_tool_payload (server_url tool_name : String) : PyVal :=
  .vdict
    [("error", .vstr ("MCP server is currently unavailable. Tool '"
        ++ tool_name ++ "' cannot be used.")),
     ("message", .vstr ("Xin lỗi, hiện tại không thể truy cập MCP server "
        ++ "để lấy thông tin thị trường. Vui lòng thử lại sau hoặc liên hệ "
        ++ "quản trị viên. MCP Server URL: " ++ server_url)),
     ("tool", .vstr tool_name),
     ("suggestion", .vstr ("MCP server có thể đang trong trạng thái cold "
        ++ "start hoặc gặp sự cố. Vui lòng đợi vài giây rồi thử lại."))]

/-- Embeds MCPToolManager.create_fallback_tools: one stub per common tool
name, each returning the payload for any arguments. -/
def create_fallback_tools (server_url : String) : List NamedTool :=
  common_mcp_tools.map fun n => ⟨n, fun _ => fallback_tool_payload server_url n⟩

/-- Embeds the MCP part of ToolCollector.collect_all_tools:
load_mcp_tools yields no tools when the session handshake fails (lines
91-102), and an empty tool list makes the collector publish the fallback
stubs instead (lines 199-202).  loaded stands for the tools a successful
load would produce. -/
def collect_mcp_tools (senv : SessionEnv) (server_url : String)
    (loaded : List NamedTool) : List NamedTool :=
  let mcp_tools :=
    if (init_session ⟨none⟩ senv 3).ret.isSome then loaded else []
  if mcp_tools.isEmpty then create_fallback_tools server_url else mcp_tools

/-! # Theorems for the claims -/

/-- Helper for C1: the error-envelope normalization always yields a dict
tagged with an error key and the method name. -/
theorem normalizeErrorEnvelope_tagged (method : String) (v : PyVal) :
    ∃ d, normalizeErrorEnvelope method v = .vdict d
      ∧ (lookup d "error").isSome = true
      ∧ lookup d "method" = some (.vstr method) := by
  cases v <;>
    exact ⟨_, rfl, by simp [lookup], by simp [lookup]⟩
/-- Helper for C1: every error outcome one route candidate can produce
is a dict carrying an error tag and the method name. -/
theorem callEndpoint_err (server_url method : String) (isLast : Bool) (i : Nat)
    (o : PostOutcome) (e : PyVal)
    (h : callEndpoint server_url method isLast i o = some (.err e)) :
    ∃ d, e = .vdict d ∧ (lookup d "error").isSome = true
      ∧ lookup d "method" = some (.vstr method) := by
  cases o with
  | timeout m =>
    simp only [callEndpoint] at h
    injection h with h
    injection h with h
    subst h
    exact ⟨_, rfl, by simp [lookup, outerExnDict], by simp [lookup, outerExnDict]⟩
  | exn m =>
    simp only [callEndpoint] at h
    injection h with h
    injection h with h
    subst h
    exact ⟨_, rfl, by simp [lookup, outerExnDict], by simp [lookup, outerExnDict]⟩
  | resp r =>
    simp only [callEndpoint] at h
    split_ifs at h with h1 h2
    · injection h with h
      injection h with h
      subst h
      exact ⟨_, rfl, by simp [lookup], by simp [lookup]⟩
    · cases hb : r.body with
      | none =>
        rw [hb] at h
        dsimp only at h
        injection h with h
        injection h with h
        subst h
        exact ⟨_, rfl, by simp [lookup], by simp [lookup]⟩
      | some result =>
        rw [hb] at h
        dsimp only at h
        by_cases he : pyContains result "error" = true
        · rw [if_pos he] at h
          cases result with
          | vdict d =>
            injection h with h
            injection h with h
            subst h
            exact normalizeErrorEnvelope_tagged method _
          | vnone =>
            injection h with h
            injection h with h
            subst h
            exact ⟨_, rfl, by simp [lookup, outerExnDict], by simp [lookup, outerExnDict]⟩
          | vbool b =>
            injection h with h
            injection h with h
            subst h
            exact ⟨_, rfl, by simp [lookup, outerExnDict], by simp [lookup, outerExnDict]⟩
          | vint n =>
            injection h with h
            injection h with h
            subst h
            exact ⟨_, rfl, by simp [lookup, outerExnDict], by simp [lookup, outerExnDict]⟩
          | vstr s =>
            injection h with h
            injection h with h
            subst h
            exact ⟨_, rfl, by simp [lookup, outerExnDict], by simp [lookup, outerExnDict]⟩
          | vlist xs =>
            injection h with h
            injection h with h
            subst h
            exact ⟨_, rfl, by simp [lookup, outerExnDict], by simp [lookup, outerExnDict]⟩
        · rw [if_neg he] at h
          cases result with
          | vdict d =>
            injection h with h
            exact CallOutcome.noConfusion h
          | vnone =>
            injection h with h
            injection h with h
            subst h
            exact ⟨_, rfl, by simp [lookup, outerExnDict], by simp [lookup, outerExnDict]⟩
          | vbool b =>
            injection h with h
            injection h with h
            subst h
            exact ⟨_, rfl, by simp [lookup, outerExnDict], by simp [lookup, outerExnDict]⟩
          | vint n =>
            injection h with h
            injection h with h
            subst h
            exact ⟨_, rfl, by simp [lookup, outerExnDict], by simp [lookup, outerExnDict]⟩
          | vstr s =>
            injection h with h
            injection h with h
            subst h
            exact ⟨_, rfl, by simp [lookup, outerExnDict], by simp [lookup, outerExnDict]⟩
          | vlist xs =>
            injection h with h
            injection h with h
            subst h
            exact ⟨_, rfl, by simp [lookup, outerExnDict], by simp [lookup, outerExnDict]⟩


/-- Helper for C1: every error outcome of the whole invocation is a dict
carrying an error tag and the method name. -/
theorem callOutcome_err (st : ClientState) (senv : SessionEnv) (cenv : CallEnv)
    (server_url method : String) (e : PyVal)
    (h : callOutcome st senv cenv server_url method = .err e) :
    ∃ d, e = .vdict d ∧ (lookup d "error").isSome = true
      ∧ lookup d "method" = some (.vstr method) := by
  unfold callOutcome at h
  cases hs : ensureSessionId st senv with
  | none =>
    rw [hs] at h
    dsimp only at h
    injection h with h
    subst h
    exact ⟨_, rfl, by simp [lookup], by simp [lookup]⟩
  | some s =>
    rw [hs] at h
    dsimp only at h
    cases h0 : callEndpoint server_url method false 0 (cenv 0) with
    | some out =>
      rw [h0] at h
      dsimp only at h
      subst h
      exact callEndpoint_err server_url method false 0 (cenv 0) e h0
    | none =>
      rw [h0] at h
      dsimp only at h
      cases h1 : callEndpoint server_url method true 1 (cenv 1) with
      | some out =>
        rw [h1] at h
        dsimp only at h
        subst h
        exact callEndpoint_err server_url method true 1 (cenv 1) e h1
      | none =>
        rw [h1] at h
        dsimp only at h
        injection h with h
        subst h
        exact ⟨_, rfl, by simp [lookup], by simp [lookup]⟩

/-- C1: for every environment, state, server url and method, call_jsonrpc
returns a value (the embedding is total, so no exception escapes): either
the success payload, or a tagged error dict that contains the method name;
in particular a session-initialization failure is returned as the tagged
error value of lines 253-256 rather than thrown. -/
theorem C1_call_jsonrpc_tagged (st : ClientState) (senv : SessionEnv)
    (cenv : CallEnv) (server_url method : String) :
    ((∃ v, callOutcome st senv cenv server_url method = .success v
        ∧ call_jsonrpc st senv cenv server_url method = v)
      ∨ (∃ d, call_jsonrpc st senv cenv server_url method = .vdict d
          ∧ (lookup d "error").isSome = true
          ∧ lookup d "method" = some (.vstr method)))
    ∧ (st.sessionId = none → (init_session ⟨none⟩ senv 3).ret = none →
        call_jsonrpc st senv cenv server_url method
          = .vdict [("error", .vstr "Failed to initialize MCP session"),
                    ("method", .vstr method)]) := by
  constructor
  · cases hc : callOutcome st senv cenv server_url method with
    | success v =>
      exact Or.inl ⟨v, rfl, by simp [call_jsonrpc, hc]⟩
    | err e =>
      right
      obtain ⟨d, hd, he, hm⟩ :=
        callOutcome_err st senv cenv server_url method e hc
      exact ⟨d, by simp [call_jsonrpc, hc, hd], he, hm⟩
  · intro hst hinit
    simp [call_jsonrpc, callOutcome, ensureSessionId, hst, hinit]

/-- Witness for C1 at a concrete all-timeout environment. -/
theorem C1_witness :
    call_jsonrpc ⟨none⟩ (fun _ _ => .timeout "t") (fun _ => .timeout "t")
        "https://peer" "tools/list"
      = .vdict [("error", .vstr "Failed to initialize MCP session"),
                ("method", .vstr "tools/list")] :=
  (C1_call_jsonrpc_tagged ⟨none⟩ (fun _ _ => .timeout "t")
    (fun _ => .timeout "t") "https://peer" "tools/list").2 rfl rfl


/-- Counterexample for C2 as stated: with every handshake request timing
out and max_retries 3, the backoff sleeps are 1 and 2 time units, totalling
3, not the claimed 1 + 2 + 4 = 7 (no sleep follows the final attempt). -/
theorem C2_counterexample :
    (init_session ⟨none⟩ (fun _ _ => .timeout "request timed out") 3).sleeps
      = [1, 2]
    ∧ (init_session ⟨none⟩
        (fun _ _ => .timeout "request timed out") 3).sleeps.sum = 3
    ∧ ¬ ((init_session ⟨none⟩
          (fun _ _ => .timeout "request timed out") 3).sleeps.sum
            = 1 + 2 + 4) := by
  refine ⟨rfl, rfl, ?_⟩
  have h : (init_session ⟨none⟩
      (fun _ _ => .timeout "request timed out") 3).sleeps.sum = 3 := rfl
  omega

/-- C2 amended: with max_retries 3 and a handshake whose every request
times out, exactly 3 attempts occur, the deterministic exponential backoff
waits are 1 and 2 time units (total 3; no wait after the final attempt),
and the session failure value none (SessionError) is produced. -/
theorem C2_timeout_retries (env : SessionEnv)
    (h : ∀ a i, ∃ m, env a i = .timeout m) :
    (init_session ⟨none⟩ env 3).attempts = 3
    ∧ (init_session ⟨none⟩ env 3).sleeps = [1, 2]
    ∧ (init_session ⟨none⟩ env 3).sleeps.sum = 1 + 2
    ∧ (init_session ⟨none⟩ env 3).ret = none := by
  obtain ⟨m0, h0⟩ := h 0 0
  obtain ⟨m1, h1⟩ := h 1 0
  obtain ⟨m2, h2⟩ := h 2 0
  have e : init_session ⟨none⟩ env 3 = ⟨none, ⟨none⟩, [1, 2], 3⟩ := by
    simp [init_session, initLoop, attemptOnce, stepEndpoint, h0, h1, h2]
  rw [e]
  exact ⟨rfl, rfl, rfl, rfl⟩

/-- Witness for C2 at the concrete all-timeout environment. -/
theorem C2_timeout_witness :
    (init_session ⟨none⟩ (fun _ _ => .timeout "t") 3).attempts = 3
    ∧ (init_session ⟨none⟩ (fun _ _ => .timeout "t") 3).sleeps = [1, 2]
    ∧ (init_session ⟨none⟩ (fun _ _ => .timeout "t") 3).sleeps.sum = 1 + 2
    ∧ (init_session ⟨none⟩ (fun _ _ => .timeout "t") 3).ret = none :=
  C2_timeout_retries (fun _ _ => .timeout "t") (fun _ _ => ⟨"t", rfl⟩)

/-- Counterexample for C3 as stated: a 500 response also advances to the
next candidate (so not only 404 does), and with 500 on the primary route
and success on the root route the handshake succeeds within the first
attempt with no backoff sleep, instead of retrying the whole list. -/
theorem C3_counterexample :
    (¬ ∀ r : HttpResp, stepEndpoint false (.resp r) = .advance →
        r.status = 404)
    ∧ init_session ⟨none⟩
        (fun _ i => if i == 0 then .resp ⟨500, none, none, "server error"⟩
                    else .resp ⟨200, some "S", none, ""⟩) 3
      = ⟨some "S", ⟨some "S"⟩, [], 1⟩ := by
  refine ⟨?_, rfl⟩
  intro h
  have h500 := h ⟨500, none, none, "server error"⟩ rfl
  exact absurd h500 (by decide)

/-- Helper for C3: under an all-timeout environment the retry loop runs to
exhaustion, sleeping 2 ^ attempt after every attempt but the last. -/
theorem initLoop_timeout_eq (env : SessionEnv) (max_retries : Nat)
    (h : ∀ a i, ∃ m, env a i = .timeout m) :
    ∀ fuel a sleeps, fuel + a = max_retries →
      initLoop env max_retries fuel a sleeps
        = ⟨none, ⟨none⟩,
           sleeps ++ (List.range' a (fuel - 1)).map (fun j => 2 ^ j),
           max_retries⟩ := by
  intro fuel
  induction fuel with
  | zero =>
    intro a sleeps ha
    have haeq : a = max_retries := by omega
    subst haeq
    simp [initLoop]
  | succ n ih =>
    intro a sleeps ha
    obtain ⟨m0, h0⟩ := h a 0
    by_cases hlt : a < max_retries - 1
    · have hn : 1 ≤ n := by omega
      obtain ⟨k, hk⟩ := Nat.exists_eq_add_of_le hn
      subst hk
      rw [show initLoop env max_retries (1 + k + 1) a sleeps
            = initLoop env max_retries (1 + k) (a + 1) (sleeps ++ [2 ^ a]) by
          simp [initLoop, attemptOnce, stepEndpoint, h0, hlt]]
      rw [ih (a + 1) (sleeps ++ [2 ^ a]) (by omega)]
      have hr : List.range' a (1 + k + 1 - 1)
          = a :: List.range' (a + 1) (1 + k - 1) := by
        have : 1 + k + 1 - 1 = (1 + k - 1) + 1 := by omega
        rw [this, List.range'_succ]
      simp only [hr, List.map_cons]
      simp [List.append_assoc]
    · have hn : n = 0 := by omega
      have haeq : a + 1 = max_retries := by omega
      subst hn
      simp [initLoop, attemptOnce, stepEndpoint, h0, hlt, haeq]

/-- C3 amended: during the handshake, on a non-final candidate any
non-200 status (404 included) advances to the next candidate; a non-200
status on the final candidate produces the failure value immediately, with
no retry; only transport/timeout exceptions retry the whole candidate list
after a backoff of 2 ^ attempt time units, up to max_retries attempts,
after which the session failure value is produced. -/
theorem C3_route_and_retry :
    (∀ r : HttpResp, r.status ≠ 200 → stepEndpoint false (.resp r) = .advance)
    ∧ (∀ r : HttpResp, r.status ≠ 200 → stepEndpoint true (.resp r) = .failNone)
    ∧ (∀ (env : SessionEnv) (max_retries fuel a : Nat) (sleeps : List Nat),
        attemptOnce env a = .failNone →
        initLoop env max_retries (fuel + 1) a sleeps
          = ⟨none, ⟨none⟩, sleeps, a + 1⟩)
    ∧ (∀ (env : SessionEnv) (max_retries : Nat),
        (∀ a i, ∃ m, env a i = .timeout m) →
        init_session ⟨none⟩ env max_retries
          = ⟨none, ⟨none⟩, (List.range (max_retries - 1)).map (fun j => 2 ^ j),
             max_retries⟩) := by
  refine ⟨?_, ?_, ?_, ?_⟩
  · intro r hr
    by_cases h404 : r.status = 404 <;> simp [stepEndpoint, h404, hr]
  · intro r hr
    simp [stepEndpoint, hr]
  · intro env max_retries fuel a sleeps hfail
    simp [initLoop, hfail]
  · intro env max_retries h
    rw [show init_session ⟨none⟩ env max_retries
          = initLoop env max_retries max_retries 0 [] from rfl]
    rw [initLoop_timeout_eq env max_retries h max_retries 0 [] (by omega)]
    simp [List.range_eq_range']

/-- Witness for C3 at concrete environments: a 500 response, the immediate
failure of a definitive in-attempt failure, and the all-timeout retry. -/
theorem C3_witness :
    stepEndpoint false (.resp ⟨500, none, none, "e"⟩) = .advance
    ∧ stepEndpoint true (.resp ⟨500, none, none, "e"⟩) = .failNone
    ∧ initLoop (fun _ _ => .resp ⟨500, none, none, "e"⟩) 3 3 0 []
        = ⟨none, ⟨none⟩, [], 1⟩
    ∧ init_session ⟨none⟩ (fun _ _ => .timeout "t") 3
        = ⟨none, ⟨none⟩, (List.range 2).map (fun j => 2 ^ j), 3⟩ :=
  ⟨C3_route_and_retry.1 ⟨500, none, none, "e"⟩ (by decide),
   C3_route_and_retry.2.1 ⟨500, none, none, "e"⟩ (by decide),
   C3_route_and_retry.2.2.1 (fun _ _ => .resp ⟨500, none, none, "e"⟩) 3 2 0 []
     rfl,
   C3_route_and_retry.2.2.2 (fun _ _ => .timeout "t") 3 (fun _ _ => ⟨"t", rfl⟩)⟩

/-- Counterexample for C4 as stated: for a generic array parameter the
fallthrough case wraps the value unchanged, with no string conversion: the
integer 5 becomes the one-element list holding 5, not the list holding the
string 5. -/
theorem C4_counterexample :
    process_arguments "get_quote_history_price"
        [("xs", .vdict [("type", .vstr "array")])] [] [("xs", .vint 5)]
      = [("xs", .vlist [.vint 5])]
    ∧ process_arguments "get_quote_history_price"
        [("xs", .vdict [("type", .vstr "array")])] [] [("xs", .vint 5)]
      ≠ [("xs", .vlist [.vstr "5"])] := by
  refine ⟨rfl, ?_⟩
  have h : process_arguments "get_quote_history_price"
      [("xs", .vdict [("type", .vstr "array")])] [] [("xs", .vint 5)]
      = [("xs", .vlist [.vint 5])] := rfl
  rw [h]
  simp

/-- C4 amended: for a parameter whose declared kind is array (outside the
get_price_board symbols special case, which is the only place that applies
string conversion), normalization maps a scalar string to the one-element
list holding it, passes a list through unchanged, and wraps any other
value as the one-element list holding the value unchanged. -/
theorem C4_array_coercion (tool_name p : String)
    (properties : List (String × PyVal)) (sch : PyVal) (v : PyVal)
    (hp : lookup properties p = some sch)
    (harr : typeIsArray (schemaType sch) = true)
    (hspec : ¬(tool_name = "get_price_board" ∧ p = "symbols")) :
    process_arguments tool_name properties [] [(p, v)] =
      [(p, match v with
           | .vstr s => .vlist [.vstr s]
           | .vlist xs => .vlist xs
           | w => .vlist [w])] := by
  have hb : (tool_name == "get_price_board" && p == "symbols") = false := by
    rcases Decidable.em (tool_name = "get_price_board") with h1 | h1 <;>
      rcases Decidable.em (p = "symbols") with h2 | h2 <;>
      simp [h1, h2] at hspec ⊢
  cases v <;>
    simp [process_arguments, processLoop, normalizeKwargs, aliasLookup,
      dictSet, processParam, coerceArray, hp, hb, harr] <;>
    exact fun h1 h2 => absurd ⟨h1, h2⟩ hspec

/-- Witness for C4 at the concrete symbols array schema of the claim. -/
theorem C4_witness :
    process_arguments "get_quote_history_price"
        [("symbols", .vdict [("type", .vstr "array")])] []
        [("symbols", .vstr "VCB")]
      = [("symbols", .vlist [.vstr "VCB"])]
    ∧ process_arguments "get_quote_history_price"
        [("symbols", .vdict [("type", .vstr "array")])] []
        [("symbols", .vlist [.vstr "VCB", .vstr "FPT"])]
      = [("symbols", .vlist [.vstr "VCB", .vstr "FPT"])] :=
  ⟨C4_array_coercion "get_quote_history_price" "symbols"
      [("symbols", .vdict [("type", .vstr "array")])]
      (.vdict [("type", .vstr "array")]) (.vstr "VCB") rfl rfl (by simp),
   C4_array_coercion "get_quote_history_price" "symbols"
      [("symbols", .vdict [("type", .vstr "array")])]
      (.vdict [("type", .vstr "array")]) (.vlist [.vstr "VCB", .vstr "FPT"])
      rfl rfl (by simp)⟩

/-- Helper for C5: the error test of the wrapper holds exactly on dicts
carrying an error key. -/
theorem isErrorDictResult_iff (v : PyVal) :
    isErrorDictResult v = true
      ↔ ∃ d, v = .vdict d ∧ (lookup d "error").isSome = true := by
  cases v <;> simp [isErrorDictResult]

/-- Helper for C5: the emptiness test of the wrapper holds exactly on
falsy values and whitespace-only strings. -/
theorem isEmptyResult_iff (v : PyVal) :
    isEmptyResult v = true
      ↔ (v.isTruthy = false ∨ ∃ s, v = .vstr s ∧ (strTrim s).length = 0) := by
  cases v <;> simp [isEmptyResult]

/-- C5: the historical-quote fallback is invoked exactly once if and only
if the primary call raised, returned an error dict, or returned an empty
(falsy or blank-string) value; in the fallback case the return value is
the reduced content of the secondary call; and the outcome is independent
of the local trading-hours time information. -/
theorem C5_fallback_trigger (t t2 : TimeInfo) (primary : Except String PyVal)
    (fbResult : PyVal) :
    ((smart_get_quote_intraday_price t primary fbResult).fallbackCalls = 1
      ↔ ((∃ m, primary = .error m)
          ∨ ∃ v, primary = .ok v
              ∧ ((∃ d, v = .vdict d ∧ (lookup d "error").isSome = true)
                  ∨ v.isTruthy = false
                  ∨ ∃ s, v = .vstr s ∧ (strTrim s).length = 0)))
    ∧ ((smart_get_quote_intraday_price t primary fbResult).fallbackCalls = 1 →
        (smart_get_quote_intraday_price t primary fbResult).ret
          = get_closing_price_fallback fbResult)
    ∧ ((smart_get_quote_intraday_price t primary fbResult).fallbackCalls = 0 →
        ∃ v, primary = .ok v
          ∧ (smart_get_quote_intraday_price t primary fbResult).ret = v)
    ∧ smart_get_quote_intraday_price t primary fbResult
        = smart_get_quote_intraday_price t2 primary fbResult := by
  refine ⟨?_, ?_, ?_, rfl⟩
  · cases primary with
    | error m =>
      exact ⟨fun _ => Or.inl ⟨m, rfl⟩, fun _ => rfl⟩
    | ok v =>
      by_cases h1 : isErrorDictResult v = true
      · constructor
        · intro _
          exact Or.inr ⟨v, rfl, Or.inl ((isErrorDictResult_iff v).mp h1)⟩
        · intro _
          simp [smart_get_quote_intraday_price, h1]
      · by_cases h2 : isEmptyResult v = true
        · constructor
          · intro _
            rcases (isEmptyResult_iff v).mp h2 with h | h
            · exact Or.inr ⟨v, rfl, Or.inr (Or.inl h)⟩
            · exact Or.inr ⟨v, rfl, Or.inr (Or.inr h)⟩
          · intro _
            simp [smart_get_quote_intraday_price, h1, h2]
        · constructor
          · intro hc
            simp [smart_get_quote_intraday_price, h1, h2] at hc
          · rintro (⟨m, hm⟩ | ⟨v0, hv0, hcond⟩)
            · exact Except.noConfusion hm
            · injection hv0 with hv0
              subst hv0
              rcases hcond with hc | hc | hc
              · exact absurd ((isErrorDictResult_iff v).mpr hc) h1
              · exact absurd ((isEmptyResult_iff v).mpr (Or.inl hc)) h2
              · exact absurd ((isEmptyResult_iff v).mpr (Or.inr hc)) h2
  · cases primary with
    | error m => intro _; rfl
    | ok v =>
      intro hc
      by_cases h1 : isErrorDictResult v = true
      · simp [smart_get_quote_intraday_price, h1]
      · by_cases h2 : isEmptyResult v = true
        · simp [smart_get_quote_intraday_price, h1, h2]
        · simp [smart_get_quote_intraday_price, h1, h2] at hc
  · cases primary with
    | error m =>
      intro hc
      exact absurd hc (by simp [smart_get_quote_intraday_price])
    | ok v =>
      intro hc
      by_cases h1 : isErrorDictResult v = true
      · simp [smart_get_quote_intraday_price, h1] at hc
      · by_cases h2 : isEmptyResult v = true
        · simp [smart_get_quote_intraday_price, h1, h2] at hc
        · exact ⟨v, rfl, by simp [smart_get_quote_intraday_price, h1, h2]⟩

/-- Witness for C5: an error-dict primary result triggers the fallback. -/
theorem C5_witness :
    (smart_get_quote_intraday_price ⟨"Monday", 10⟩
        (.ok (.vdict [("error", .vstr "x")]))
        (.vdict [("content", .vlist [.vdict [("text", .vstr "42")]])])).ret
      = get_closing_price_fallback
          (.vdict [("content", .vlist [.vdict [("text", .vstr "42")]])]) :=
  (C5_fallback_trigger ⟨"Monday", 10⟩ ⟨"Sunday", 3⟩
      (.ok (.vdict [("error", .vstr "x")]))
      (.vdict [("content", .vlist [.vdict [("text", .vstr "42")]])])).2.1 rfl


/-- C6: when the session handshake fails, every well-known capability
name resolves to a callable among the collected tools, and for every
arguments that callable returns, without raising (the embedding is total),
the structured payload that names the capability under its tool key and
inside its error text, and names the configured peer address inside its
message text. -/
theorem C6_stub_mode (senv : SessionEnv) (server_url : String)
    (loaded : List NamedTool)
    (hfail : (init_session ⟨none⟩ senv 3).ret = none) :
    ∀ name ∈ common_mcp_tools,
      ∃ t ∈ collect_mcp_tools senv server_url loaded,
        t.name = name
        ∧ ∀ args, t.call args = fallback_tool_payload server_url name
            ∧ ∃ d, t.call args = .vdict d
                ∧ lookup d "tool" = some (.vstr name)
                ∧ (∃ emsg p q, lookup d "error" = some (.vstr emsg)
                    ∧ emsg = p ++ name ++ q)
                ∧ (∃ m p, lookup d "message" = some (.vstr m)
                    ∧ m = p ++ server_url) := by
  intro name hname
  have hcoll : collect_mcp_tools senv server_url loaded
      = create_fallback_tools server_url := by
    simp [collect_mcp_tools, hfail]
  rw [hcoll]
  refine ⟨⟨name, fun _ => fallback_tool_payload server_url name⟩, ?_, rfl, ?_⟩
  · exact List.mem_map.mpr ⟨name, hname, rfl⟩
  · intro args
    refine ⟨rfl, ?_⟩
    refine ⟨_, rfl, ?_, ?_, ?_⟩
    · simp [fallback_tool_payload, lookup]
    · exact ⟨"MCP server is currently unavailable. Tool '" ++ name
          ++ "' cannot be used.",
        "MCP server is currently unavailable. Tool '", "' cannot be used.",
        by simp [fallback_tool_payload, lookup], rfl⟩
    · exact ⟨"Xin lỗi, hiện tại không thể truy cập MCP server "
          ++ "để lấy thông tin thị trường. Vui lòng thử lại sau hoặc liên hệ "
          ++ "quản trị viên. MCP Server URL: " ++ server_url,
        "Xin lỗi, hiện tại không thể truy cập MCP server "
          ++ "để lấy thông tin thị trường. Vui lòng thử lại sau hoặc liên hệ "
          ++ "quản trị viên. MCP Server URL: ",
        by simp [fallback_tool_payload, lookup], rfl⟩

/-- Witness for C6 at a concrete all-timeout environment. -/
theorem C6_witness :
    ∃ t ∈ collect_mcp_tools (fun _ _ => .timeout "t") "https://peer" [],
      t.name = "get_price_board"
      ∧ ∀ args, t.call args
            = fallback_tool_payload "https://peer" "get_price_board"
          ∧ ∃ d, t.call args = .vdict d
              ∧ lookup d "tool" = some (.vstr "get_price_board")
              ∧ (∃ emsg p q, lookup d "error" = some (.vstr emsg)
                  ∧ emsg = p ++ "get_price_board" ++ q)
              ∧ (∃ m p, lookup d "message" = some (.vstr m)
                  ∧ m = p ++ "https://peer") :=
  C6_stub_mode (fun _ _ => .timeout "t") "https://peer" [] rfl
    "get_price_board" (by simp [common_mcp_tools])


/-- C7: the ContentPayload reduction maps a content list whose collected
texts are exactly one item to that item, joins the texts of a two-item
list with a newline, returns a string content as itself, and passes a dict
without content and text keys through unchanged. -/
theorem C7_content_reduction :
    (∀ a : String,
      reduceContent (.vdict [("content", .vlist [.vdict [("text", .vstr a)]])])
        = .ok (.vstr a))
    ∧ (∀ a b : String,
      reduceContent (.vdict [("content",
          .vlist [.vdict [("text", .vstr a)], .vdict [("text", .vstr b)]])])
        = .ok (.vstr (a ++ "\n" ++ b)))
    ∧ (∀ (items : List PyVal) (t : PyVal), collectTexts items = [t] →
      reduceContent (.vdict [("content", .vlist items)]) = .ok t)
    ∧ (∀ s : String,
      reduceContent (.vdict [("content", .vstr s)]) = .ok (.vstr s))
    ∧ (∀ d : List (String × PyVal),
      lookup d "content" = none → lookup d "text" = none →
      reduceContent (.vdict d) = .ok (.vdict d)) := by
  refine ⟨?_, ?_, ?_, ?_, ?_⟩
  · intro a
    simp [reduceContent, lookup, collectTexts, joinTexts]
  · intro a b
    simp [reduceContent, lookup, collectTexts, joinTexts, pyStr,
      String.intercalate, String.intercalate.go]
  · intro items t ht
    simp [reduceContent, lookup, ht, joinTexts]
  · intro s
    simp [reduceContent, lookup]
  · intro d hc htx
    simp [reduceContent, hc, htx]

/-- Witness for C7: a content list holding one text item among other
items reduces to that text. -/
theorem C7_witness :
    reduceContent (.vdict [("content",
        .vlist [.vdict [("text", .vstr "a")], .vint 7])])
      = .ok (.vstr "a") :=
  C7_content_reduction.2.2.1 [.vdict [("text", .vstr "a")], .vint 7]
    (.vstr "a") rfl


/-- Counterexample for C8 as stated: when the schema of get_price_board
declares only the singular symbol parameter, the alias still maps to
symbols, but the scalar is not normalized into a one-element list: symbols
is not among the declared properties, so the value passes through
unchanged. -/
theorem C8_counterexample :
    process_arguments "get_price_board"
        [("symbol", .vdict [("type", .vstr "string")])]
        (get_tool_param_mapping [("symbol", .vdict [("type", .vstr "string")])]
          "get_price_board")
        [("symbol", .vstr "VCB")]
      = [("symbols", .vstr "VCB")]
    ∧ process_arguments "get_price_board"
        [("symbol", .vdict [("type", .vstr "string")])]
        (get_tool_param_mapping [("symbol", .vdict [("type", .vstr "string")])]
          "get_price_board")
        [("symbol", .vstr "VCB")]
      ≠ [("symbols", .vlist [.vstr "VCB"])] := by
  refine ⟨rfl, ?_⟩
  have h : process_arguments "get_price_board"
      [("symbol", .vdict [("type", .vstr "string")])]
      (get_tool_param_mapping [("symbol", .vdict [("type", .vstr "string")])]
        "get_price_board")
      [("symbol", .vstr "VCB")]
      = [("symbols", .vstr "VCB")] := rfl
  rw [h]
  simp

/-- C8 amended: for get_price_board the capability-specific table always
maps symbol, stock, stocks and symbol_list to symbols, whatever the schema
declares; and whenever the schema does declare a symbols parameter, a
scalar string supplied under any of these aliases is then normalized to a
one-element symbols list. -/
theorem C8_alias_override (properties : List (String × PyVal)) (sch : PyVal)
    (al s : String)
    (hal : al ∈ ["symbol", "stock", "stocks", "symbol_list"])
    (hsym : lookup properties "symbols" = some sch) :
    get_tool_param_mapping properties "get_price_board"
      = [("symbol", "symbols"), ("symbol_list", "symbols"),
         ("stocks", "symbols"), ("stock", "symbols")]
    ∧ process_arguments "get_price_board" properties
        (get_tool_param_mapping properties "get_price_board")
        [(al, .vstr s)]
      = [("symbols", .vlist [.vstr s])] := by
  refine ⟨rfl, ?_⟩
  have hmap : get_tool_param_mapping properties "get_price_board"
      = [("symbol", "symbols"), ("symbol_list", "symbols"),
         ("stocks", "symbols"), ("stock", "symbols")] := rfl
  rw [hmap]
  simp only [List.mem_cons, List.mem_singleton, List.not_mem_nil,
    or_false] at hal
  rcases hal with h | h | h | h <;> subst h <;>
    simp [process_arguments, processLoop, normalizeKwargs, aliasLookup,
      dictSet, processParam, coercePriceBoardSymbols, hsym]

/-- Witness for C8 at the claim instance: schema exposing both symbol and
symbols, scalar supplied under symbol. -/
theorem C8_witness :
    get_tool_param_mapping
        [("symbol", .vdict [("type", .vstr "string")]),
         ("symbols", .vdict [("type", .vstr "array")])] "get_price_board"
      = [("symbol", "symbols"), ("symbol_list", "symbols"),
         ("stocks", "symbols"), ("stock", "symbols")]
    ∧ process_arguments "get_price_board"
        [("symbol", .vdict [("type", .vstr "string")]),
         ("symbols", .vdict [("type", .vstr "array")])]
        (get_tool_param_mapping
          [("symbol", .vdict [("type", .vstr "string")]),
           ("symbols", .vdict [("type", .vstr "array")])] "get_price_board")
        [("symbol", .vstr "VCB")]
      = [("symbols", .vlist [.vstr "VCB"])] :=
  C8_alias_override
    [("symbol", .vdict [("type", .vstr "string")]),
     ("symbols", .vdict [("type", .vstr "array")])]
    (.vdict [("type", .vstr "array")]) "symbol" "VCB"
    (by simp) rfl

/-- Helper for C9: a string has length zero exactly when it is empty. -/
theorem string_length_zero_iff (s : String) : s.length = 0 ↔ s = "" := by
  constructor
  · intro h
    cases s with
    | mk data =>
      simp [String.length] at h
      simp [h]
  · intro h
    simp [h]

/-- C9: a string payload of a successful transport response is
reclassified into a structured error dict naming the tool if and only if
it contains the substring error or failed case-insensitively or its
trimmed content is empty; consequently a legitimate business string that
merely mentions the word error is reported as a structured error. -/
theorem C9_error_sniff :
    (∀ (tool_name s : String),
      (∃ d, processToolResult tool_name (.vstr s) = .ok (.vdict d)
          ∧ (lookup d "error").isSome = true
          ∧ lookup d "tool" = some (.vstr tool_name))
        ↔ (strContains (strLower s) "error" = true
            ∨ strContains (strLower s) "failed" = true
            ∨ strTrim s = ""))
    ∧ processToolResult "get_company_news"
        (.vstr "Moody assigns rating; error count 0")
      = .ok (.vdict [("error", .vstr "Moody assigns rating; error count 0"),
                     ("tool", .vstr "get_company_news")]) := by
  constructor
  · intro tool_name s
    constructor
    · rintro ⟨d, hd, he, ht⟩
      by_cases hl : looksLikeErrorText s = true
      · unfold looksLikeErrorText at hl
        simp only [Bool.or_eq_true, beq_iff_eq] at hl
        rcases hl with (hl | hl) | hl
        · exact Or.inl hl
        · exact Or.inr (Or.inl hl)
        · exact Or.inr (Or.inr ((string_length_zero_iff (strTrim s)).mp hl))
      · rw [show processToolResult tool_name (.vstr s)
              = reduceContent (.vstr s) from by
            simp [processToolResult, hl]] at hd
        unfold reduceContent at hd
        dsimp only at hd
        split_ifs at hd
        all_goals
          first
          | exact Except.noConfusion hd
          | (injection hd with hd; exact PyVal.noConfusion hd)
    · intro hcond
      have hl : looksLikeErrorText s = true := by
        unfold looksLikeErrorText
        simp only [Bool.or_eq_true, beq_iff_eq]
        rcases hcond with hc | hc | hc
        · exact Or.inl (Or.inl hc)
        · exact Or.inl (Or.inr hc)
        · exact Or.inr ((string_length_zero_iff (strTrim s)).mpr hc)
      refine ⟨[("error", if (strTrim s).length != 0 then PyVal.vstr s
                  else PyVal.vstr "Empty response"),
               ("tool", PyVal.vstr tool_name)], ?_, ?_, ?_⟩
      · simp [processToolResult, hl]
      · simp [lookup]
      · simp [lookup]
  · rfl

/-- Witness for C9: a concrete string containing failed is reclassified. -/
theorem C9_witness :
    ∃ d, processToolResult "get_price_board" (.vstr "transfer failed") = .ok (.vdict d)
      ∧ (lookup d "error").isSome = true
      ∧ lookup d "tool" = some (.vstr "get_price_board") :=
  (C9_error_sniff.1 "get_price_board" "transfer failed").mpr
    (Or.inr (Or.inl rfl))


/-- Helper for C10: a per-candidate success step comes only from a
200-status response that supplied the session header and whose decoded
body carries no error envelope. -/
theorem stepEndpoint_success (isLast : Bool) (o : PostOutcome) (sid : String)
    (h : stepEndpoint isLast o = .success sid) :
    ∃ r, o = .resp r ∧ r.status = 200 ∧ r.sessionHeader = some sid
      ∧ bodyCarriesError r.body = false := by
  cases o with
  | timeout m => simp [stepEndpoint] at h
  | exn m => simp [stepEndpoint] at h
  | resp r =>
    refine ⟨r, rfl, ?_⟩
    by_cases h1 : (r.status == 404 && !isLast) = true
    · simp [stepEndpoint, h1] at h
    · by_cases h2 : (r.status != 200) = true
      · simp [stepEndpoint, h1, h2] at h
        split at h <;> simp_all
      · have h200 : r.status = 200 := by
          simpa using h2
        cases hs : r.sessionHeader with
        | none =>
          simp [stepEndpoint, h1, h2, hs] at h
          split at h <;> simp_all
        | some sid2 =>
          by_cases hb : bodyCarriesError r.body = true
          · simp [stepEndpoint, h1, h2, hs, hb] at h
          · simp [stepEndpoint, h1, h2, hs, hb] at h
            exact ⟨h200, by simp [hs, h], by simpa using hb⟩

/-- Helper for C10: a successful attempt pins down the candidate that
produced the session id. -/
theorem attemptOnce_success (env : SessionEnv) (a : Nat) (sid : String)
    (h : attemptOnce env a = .success sid) :
    ∃ i r, i < 2 ∧ env a i = .resp r ∧ r.status = 200
      ∧ r.sessionHeader = some sid ∧ bodyCarriesError r.body = false := by
  unfold attemptOnce at h
  cases h0 : stepEndpoint false (env a 0) with
  | advance =>
    rw [h0] at h
    obtain ⟨r, ho, hst, hh, hb⟩ := stepEndpoint_success true (env a 1) sid h
    exact ⟨1, r, by omega, ho, hst, hh, hb⟩
  | success sid0 =>
    rw [h0] at h
    cases h
    obtain ⟨r, ho, hst, hh, hb⟩ := stepEndpoint_success false (env a 0) sid h0
    exact ⟨0, r, by omega, ho, hst, hh, hb⟩
  | failNone => rw [h0] at h; cases h
  | timeoutErr m => rw [h0] at h; cases h
  | exnErr m => rw [h0] at h; cases h

/-- Helper for C10: through the whole retry loop, a none return leaves the
cached state empty, and a some return caches exactly that id and traces
back to a clean 200 response with the session header. -/
theorem initLoop_session_cache (env : SessionEnv) (max_retries : Nat) :
    ∀ fuel a sleeps,
      ((initLoop env max_retries fuel a sleeps).ret = none →
        (initLoop env max_retries fuel a sleeps).st = ⟨none⟩)
      ∧ ∀ sid, (initLoop env max_retries fuel a sleeps).ret = some sid →
          (initLoop env max_retries fuel a sleeps).st = ⟨some sid⟩
          ∧ ∃ b i r, i < 2 ∧ env b i = .resp r ∧ r.status = 200
              ∧ r.sessionHeader = some sid ∧ bodyCarriesError r.body = false := by
  intro fuel
  induction fuel with
  | zero =>
    intro a sleeps
    exact ⟨fun _ => rfl, fun sid hs => by simp [initLoop] at hs⟩
  | succ n ih =>
    intro a sleeps
    cases hA : attemptOnce env a with
    | success sid0 =>
      have hEq : initLoop env max_retries (n + 1) a sleeps
          = ⟨some sid0, ⟨some sid0⟩, sleeps, a + 1⟩ := by
        simp [initLoop, hA]
      rw [hEq]
      refine ⟨?_, ?_⟩
      · intro hc
        simp at hc
      · intro sid hs
        have hsid : sid0 = sid := by simpa using hs
        subst hsid
        obtain ⟨i, r, hi⟩ := attemptOnce_success env a sid0 hA
        exact ⟨rfl, a, i, r, hi⟩
    | failNone =>
      have hEq : initLoop env max_retries (n + 1) a sleeps
          = ⟨none, ⟨none⟩, sleeps, a + 1⟩ := by
        simp [initLoop, hA]
      rw [hEq]
      exact ⟨fun _ => rfl, fun sid hs => by cases hs⟩
    | advance =>
      have hEq : initLoop env max_retries (n + 1) a sleeps
          = initLoop env max_retries n (a + 1) sleeps := by
        simp [initLoop, hA]
      rw [hEq]
      exact ih (a + 1) sleeps
    | timeoutErr m =>
      by_cases hlt : a < max_retries - 1
      · have hEq : initLoop env max_retries (n + 1) a sleeps
            = initLoop env max_retries n (a + 1) (sleeps ++ [2 ^ a]) := by
          simp [initLoop, hA, hlt]
        rw [hEq]
        exact ih (a + 1) (sleeps ++ [2 ^ a])
      · have hEq : initLoop env max_retries (n + 1) a sleeps
            = ⟨none, ⟨none⟩, sleeps, a + 1⟩ := by
          simp [initLoop, hA, hlt]
        rw [hEq]
        exact ⟨fun _ => rfl, fun sid hs => by cases hs⟩
    | exnErr m =>
      by_cases hlt : a < max_retries - 1
      · have hEq : initLoop env max_retries (n + 1) a sleeps
            = initLoop env max_retries n (a + 1) (sleeps ++ [2 ^ a]) := by
          simp [initLoop, hA, hlt]
        rw [hEq]
        exact ih (a + 1) (sleeps ++ [2 ^ a])
      · have hEq : initLoop env max_retries (n + 1) a sleeps
            = ⟨none, ⟨none⟩, sleeps, a + 1⟩ := by
          simp [initLoop, hA, hlt]
        rw [hEq]
        exact ⟨fun _ => rfl, fun sid hs => by cases hs⟩

/-- C10: session establishment is atomic with respect to the cached state:
starting from an absent session id, every failure return of
initialize_session leaves the cached id absent, and an id is returned (and
cached) only when some candidate answered with status 200, supplied the
session header with that id, and its decoded body carried no error
envelope. -/
theorem C10_session_atomic (env : SessionEnv) (max_retries : Nat) :
    ((init_session ⟨none⟩ env max_retries).ret = none →
      (init_session ⟨none⟩ env max_retries).st = ⟨none⟩)
    ∧ ∀ sid, (init_session ⟨none⟩ env max_retries).ret = some sid →
        (init_session ⟨none⟩ env max_retries).st = ⟨some sid⟩
        ∧ ∃ b i r, i < 2 ∧ env b i = .resp r ∧ r.status = 200
            ∧ r.sessionHeader = some sid ∧ bodyCarriesError r.body = false :=
  initLoop_session_cache env max_retries max_retries 0 []

/-- Witness for C10 at the concrete all-timeout environment. -/
theorem C10_witness :
    (init_session ⟨none⟩ (fun _ _ => .timeout "t") 3).st = ⟨none⟩ :=
  (C10_session_atomic (fun _ _ => .timeout "t") 3).1 rfl

end AdkGateway
